import Mathlib

/-!
Verification of the physics, collision and lifecycle core of the pyweek17
game (src/pyweek17.py with vector operations from src/vectypes.py).

Python floats are modelled by the real numbers; moon-health bookkeeping,
which only ever holds exactly representable values from a fixed list, is
modelled by the rationals.  Every definition is a direct transcription of
the corresponding source function, with mutation turned into explicit
state passing.
-/

namespace Pyweek17

/-- vec2 from vectypes.py: a pair of scalars with component-wise arithmetic. -/
@[ext] structure Vec2 where
  x : ℝ
  y : ℝ

instance : Add Vec2 := ⟨fun a b => ⟨a.x + b.x, a.y + b.y⟩⟩
instance : Sub Vec2 := ⟨fun a b => ⟨a.x - b.x, a.y - b.y⟩⟩
instance : Neg Vec2 := ⟨fun a => ⟨-a.x, -a.y⟩⟩
instance : Zero Vec2 := ⟨⟨0, 0⟩⟩

/-- Scalar times vector, as in Python `2 * o.pos`. -/
instance : HMul ℝ Vec2 Vec2 := ⟨fun c v => ⟨c * v.x, c * v.y⟩⟩

/-- Vector times scalar, as in Python `a * t`. -/
instance : HMul Vec2 ℝ Vec2 := ⟨fun v c => ⟨v.x * c, v.y * c⟩⟩

/-- Vector divided by scalar, as in Python `v / length(v)`. -/
noncomputable instance : HDiv Vec2 ℝ Vec2 := ⟨fun v c => ⟨v.x / c, v.y / c⟩⟩

/-- length from vectypes.py (2-component case): sqrt(x*x + y*y). -/
noncomputable def length (v : Vec2) : ℝ := Real.sqrt (v.x * v.x + v.y * v.y)

/-- distance from vectypes.py: length(a - b). -/
noncomputable def distance (a b : Vec2) : ℝ := length (a - b)

/-- normalize from vectypes.py: v / length(v) unless the length is 0, else v. -/
noncomputable def normalize (v : Vec2) : Vec2 :=
  if length v ≠ 0 then v / length v else v

/-- clamp from pyweek17.py: min(b, max(a, v)). -/
noncomputable def clamp (v a b : ℝ) : ℝ := min b (max a v)

/-- rotate from pyweek17.py: rotate v by angle using sin and cos. -/
noncomputable def rotate (v : Vec2) (angle : ℝ) : Vec2 :=
  let s := Real.sin angle
  let c := Real.cos angle
  ⟨v.x * c - v.y * s, v.x * s + v.y * c⟩

/-- Constant MOON_DISTANCE from pyweek17.py. -/
noncomputable def MOON_DISTANCE : ℝ := 500

/-- Constant MOON_SECONDS_PER_ROTATION from pyweek17.py. -/
noncomputable def MOON_SECONDS_PER_ROTATION : ℝ := 15

/-- Constant MOUSE_SPEED from pyweek17.py. -/
noncomputable def MOUSE_SPEED : ℝ := 60

/-- Constant CAT_ATTACK_RANGE from pyweek17.py. -/
noncomputable def CAT_ATTACK_RANGE : ℝ := 50

/-- Constant MOUSE_DAMAGE from pyweek17.py (0.1, exactly 1/10 as a rational). -/
def MOUSE_DAMAGE : ℚ := 1 / 10

/-- Orbit state of the Moon: the earth it orbits, its orbit angle, and its
cached position (Moon.pos).  Health is modelled separately. -/
structure MoonState where
  earthPos : Vec2
  angle : ℝ
  pos : Vec2

/-- Moon.calc_position: earth.pos + rotate(vec2(MOON_DISTANCE, 0), angle). -/
noncomputable def calc_position (m : MoonState) (angle : ℝ) : Vec2 :=
  m.earthPos + rotate ⟨MOON_DISTANCE, 0⟩ angle

/-- Moon.future_position: calc_position(angle + t / MOON_SECONDS_PER_ROTATION).
Note the source divides t by the period WITHOUT the 2*pi factor that
Moon.update_by uses when it advances the angle. -/
noncomputable def future_position (m : MoonState) (t : ℝ) : Vec2 :=
  calc_position m (m.angle + t / MOON_SECONDS_PER_ROTATION)

/-- Moon.update_by: set pos from future_position(t), then advance the angle
by 2*pi*t / MOON_SECONDS_PER_ROTATION. -/
noncomputable def moon_update_by (m : MoonState) (t : ℝ) : MoonState :=
  { m with pos := future_position m t,
           angle := m.angle + 2 * Real.pi * t / MOON_SECONDS_PER_ROTATION }

/-- Future position as the specification words it: the orbit formula evaluated
at angle + 2*pi*lead_time/period, i.e.
earth.position + R*(cos(angle + 2*pi*t/period), sin(angle + 2*pi*t/period)).
This definition follows the spec wording, for comparison with the source
future_position. -/
noncomputable def spec_future_position (m : MoonState) (t : ℝ) : Vec2 :=
  ⟨m.earthPos.x + MOON_DISTANCE * Real.cos (m.angle + 2 * Real.pi * t / MOON_SECONDS_PER_ROTATION),
   m.earthPos.y + MOON_DISTANCE * Real.sin (m.angle + 2 * Real.pi * t / MOON_SECONDS_PER_ROTATION)⟩

/-- List moon_eated_states from pyweek17.py. -/
def moon_eated_states : List ℕ := [100, 75, 50, 25, 15, 5]

/-- Loop body of Moon.take_damage: walk the state list for the first v
with health > v/100 and break there; falling off the end is the for-else
branch, which fires the game-over transition. -/
def find_eated_state (health : ℚ) : List ℕ → ℚ × Bool
  | [] => (health, true)
  | v :: rest =>
    if (v : ℚ) / 100 < health then ((v : ℚ) / 100, false)
    else find_eated_state health rest

/-- Moon.take_damage: snap health to the first state below it in
moon_eated_states (the amount argument is never read); if no state is
below, fire the game-over transition.  Returns (new health, fired). -/
def take_damage (health : ℚ) (amount : ℚ) : ℚ × Bool :=
  find_eated_state health moon_eated_states

/-- Health and cumulative count of game-over firings after n successive
Homing-Entity-to-moon collisions, starting from health 1.0. -/
def moon_hits : ℕ → ℚ × ℕ
  | 0 => (1, 0)
  | n + 1 =>
    let p := moon_hits n
    let r := take_damage p.1 MOUSE_DAMAGE
    (r.1, p.2 + if r.2 then 1 else 0)

/-- Verlet state: o.pos and o.last_pos as used by verlet_init and
verlet_step in pyweek17.py. -/
structure VerletS where
  pos : Vec2
  last_pos : Vec2

/-- verlet_init from pyweek17.py: o.last_pos = o.pos - initial_v. -/
def verlet_init (pos initial_v : Vec2) : VerletS := ⟨pos, pos - initial_v⟩

/-- verlet_step from pyweek17.py: new_pos = 2*pos - last_pos + a, then the
history shifts. -/
def verlet_step (o : VerletS) (a : Vec2) : VerletS :=
  ⟨(2 : ℝ) * o.pos - o.last_pos + a, o.pos⟩

/-- verlet_step applied n times with the same acceleration argument. -/
def verlet_iterate (s : VerletS) (a : Vec2) : ℕ → VerletS
  | 0 => s
  | n + 1 => verlet_step (verlet_iterate s a n) a

/-- Verlet initialisation as the specification words it:
previous_position = position - initial_velocity * unit_time with
unit_time = 1/60.  This definition follows the spec wording, for
comparison with the source verlet_init. -/
noncomputable def spec_verlet_init (pos initial_v : Vec2) : VerletS :=
  ⟨pos, pos - initial_v * ((1 : ℝ) / 60)⟩

/-- Position and collision radius of an immobile round body (the earth, or
the moon as seen by the gravity and collision code). -/
structure BodyS where
  pos : Vec2
  radius : ℝ

/-- State of a Mouse: position, collision radius, dead flag. -/
structure MouseS where
  pos : Vec2
  radius : ℝ
  dead : Bool

/-- State of a Cat.  target is the index of the locked-on mouse in the
environment (None before lock-on); attack_pos is attack_sphere.pos. -/
structure CatS where
  pos : Vec2
  last_pos : Vec2
  radius : ℝ
  attack_pos : Vec2
  dead : Bool
  target : Option ℕ
  attack_speed : ℝ
  lifetime : ℝ
  rotation : ℝ
  rotate_speed : ℝ

/-- Cat.force_of_gravity: d = body.pos - self.pos, r = length(d)/1000,
result 10*normalize(d) / (r*r). -/
noncomputable def force_of_gravity (self_pos : Vec2) (body : BodyS) : Vec2 :=
  let d := body.pos - self_pos
  let r := length d / 1000
  ((10 : ℝ) * normalize d) / (r * r)

/-- Cat.update_by(t, earth, moon): without a target, one Verlet step under
the summed gravity of earth and moon (argument a*t*t) with the attack
sphere following the body and the sprite rotating by rotate_speed times
the frame delta ts; with a target, move straight at the target at
attack_speed, collapse the Verlet history onto the new position, and die
if the target is dead. -/
noncomputable def cat_update_by (c : CatS) (t : ℝ) (earth moon : BodyS)
    (mice : ℕ → MouseS) (ts : ℝ) : CatS :=
  match c.target with
  | none =>
      let earth_G := force_of_gravity c.pos earth
      let moon_G := force_of_gravity c.pos moon
      let a := earth_G + moon_G
      let v := verlet_step ⟨c.pos, c.last_pos⟩ (a * t * t)
      { c with pos := v.pos, last_pos := v.last_pos, attack_pos := v.pos,
               rotation := c.rotation + c.rotate_speed * ts }
  | some i =>
      let to_target := normalize ((mice i).pos - c.pos)
      let new_pos := c.pos + to_target * c.attack_speed * t
      { c with pos := new_pos, last_pos := new_pos,
               dead := if (mice i).dead then true else c.dead }

/-- One update environment for a Cat: physics timestep t, earth, moon, the
mouse environment, and the frame delta ts. -/
def EnvS : Type := ℝ × BodyS × BodyS × (ℕ → MouseS) × ℝ

/-- cat_update_by with its inputs bundled as an EnvS. -/
noncomputable def cat_update_env (c : CatS) (e : EnvS) : CatS :=
  cat_update_by c e.1 e.2.1 e.2.2.1 e.2.2.2.1 e.2.2.2.2

/-- Mouse.on_tick: five fixed refinement iterations of
time_to_moon = length(moon.future_position(time_to_moon) - self.pos) / MOUSE_SPEED
starting from 0, then a step of normalize(future - pos) * MOUSE_SPEED * ts. -/
noncomputable def mouse_on_tick (mn : MoonState) (pos : Vec2) (ts : ℝ) : Vec2 :=
  let time_to_moon := (List.range 5).foldl
    (fun time_to_moon _ => length (future_position mn time_to_moon - pos) / MOUSE_SPEED) 0
  let to_target := normalize (future_position mn time_to_moon - pos)
  pos + to_target * MOUSE_SPEED * ts

/-- Cat.mouse_in_attack_range: on a target-less cat, lock onto mouse i and
capture attack_speed = (1/ts) * length(pos - last_pos). -/
noncomputable def mouse_in_attack_range (c : CatS) (i : ℕ) (ts : ℝ) : CatS :=
  match c.target with
  | none => { c with target := some i,
                     attack_speed := (1 / ts) * length (c.pos - c.last_pos) }
  | some _ => c

/-- RoundSprite.collides_with and BoundedSphere.collides_with:
length(self.pos - thing.pos) < self.radius + thing.radius (strict). -/
def collides_with (a_pos : Vec2) (a_radius : ℝ) (b_pos : Vec2) (b_radius : ℝ) : Prop :=
  length (a_pos - b_pos) < a_radius + b_radius

noncomputable instance (a_pos : Vec2) (a_radius : ℝ) (b_pos : Vec2) (b_radius : ℝ) :
    Decidable (collides_with a_pos a_radius b_pos b_radius) :=
  inferInstanceAs (Decidable (length (a_pos - b_pos) < a_radius + b_radius))

/-- State of a dust Cloud as far as the lifecycle manager sees it. -/
structure CloudS where
  pos : Vec2
  dead : Bool

/-- The per-pass mutable state of Game.handle_collision. -/
structure GameS where
  cats : List CatS
  mice : List MouseS
  clouds : List CloudS
  score : ℝ
  moon_health : ℚ
  game_over : Bool

/-- Loop 2 body of Game.handle_collision: a mouse hitting the earth dies
with no damage; elif it hits the moon, the moon takes damage and the mouse
dies. -/
noncomputable def mouse_moon_step (earth moon : BodyS)
    (acc : List MouseS × ℚ × Bool) (m : MouseS) : List MouseS × ℚ × Bool :=
  if collides_with m.pos m.radius earth.pos earth.radius then
    (acc.1 ++ [{ m with dead := true }], acc.2.1, acc.2.2)
  else if collides_with m.pos m.radius moon.pos moon.radius then
    let r := take_damage acc.2.1 MOUSE_DAMAGE
    (acc.1 ++ [{ m with dead := true }], r.1, acc.2.2 || r.2)
  else
    (acc.1 ++ [m], acc.2.1, acc.2.2)

/-- Accumulator for the inner mouse loop of rule 4: the cat being
processed, the mice already visited, the running score, the clouds. -/
structure PairAcc where
  cat : CatS
  mice : List MouseS
  score : ℝ
  clouds : List CloudS

/-- Inner loop body of rule 4 in Game.handle_collision: attack-sphere
overlap locks the cat on, body overlap kills both, spawns a cloud and adds
5 + 3*clamp(lifetime - 1, 0, 5) to the score.  Exactly as in the source,
no dead flag is consulted. -/
noncomputable def cat_mouse_step (ts : ℝ) (acc : PairAcc) (im : ℕ × MouseS) : PairAcc :=
  let c1 := if collides_with acc.cat.attack_pos CAT_ATTACK_RANGE im.2.pos im.2.radius
            then mouse_in_attack_range acc.cat im.1 ts else acc.cat
  if collides_with c1.pos c1.radius im.2.pos im.2.radius then
    { cat := { c1 with dead := true },
      mice := acc.mice ++ [{ im.2 with dead := true }],
      score := acc.score + (5 + 3 * clamp (c1.lifetime - 1) 0 5),
      clouds := acc.clouds ++ [⟨im.2.pos, false⟩] }
  else
    { acc with cat := c1, mice := acc.mice ++ [im.2] }

/-- Accumulator for the outer cat loop of rule 4. -/
structure CatsAcc where
  cats : List CatS
  mice : List MouseS
  score : ℝ
  clouds : List CloudS

/-- Outer loop body of rule 4: run the current cat against every mouse in
order, threading mice, score and clouds. -/
noncomputable def cat_loop_step (ts : ℝ) (acc : CatsAcc) (c : CatS) : CatsAcc :=
  let r := acc.mice.enum.foldl (cat_mouse_step ts) ⟨c, [], acc.score, acc.clouds⟩
  ⟨acc.cats ++ [r.cat], r.mice, r.score, r.clouds⟩

/-- Game.handle_collision, transcribed loop by loop: cats hitting earth or
moon die; mice hitting earth die, mice hitting the moon damage it and die;
every cat is run against every mouse for lock-on and kills; finally the
three collections are compacted by filtering out dead entities. -/
noncomputable def handle_collision (earth moon : BodyS) (ts : ℝ) (g : GameS) : GameS :=
  let cats1 := g.cats.map (fun c =>
    if collides_with c.pos c.radius earth.pos earth.radius ∨
       collides_with c.pos c.radius moon.pos moon.radius
    then { c with dead := true } else c)
  let mr := g.mice.foldl (mouse_moon_step earth moon) ([], g.moon_health, g.game_over)
  let cr := cats1.foldl (cat_loop_step ts) ⟨[], mr.1, g.score, g.clouds⟩
  { cats := cr.cats.filter (fun c => !c.dead),
    mice := cr.mice.filter (fun m => !m.dead),
    clouds := cr.clouds.filter (fun c => !c.dead),
    score := cr.score,
    moon_health := mr.2.1,
    game_over := mr.2.2 }

/-- Loop 2 body as the specification words it: a mouse already marked dead
is never re-processed.  This definition follows the spec wording, for
comparison with the source loop. -/
noncomputable def spec_mouse_moon_step (earth moon : BodyS)
    (acc : List MouseS × ℚ × Bool) (m : MouseS) : List MouseS × ℚ × Bool :=
  if m.dead then (acc.1 ++ [m], acc.2.1, acc.2.2)
  else mouse_moon_step earth moon acc m

/-- Rule 4 inner body as the specification words it: a pair is skipped as
soon as either participant is already dead.  This definition follows the
spec wording, for comparison with the source loop. -/
noncomputable def spec_cat_mouse_step (ts : ℝ) (acc : PairAcc) (im : ℕ × MouseS) : PairAcc :=
  if acc.cat.dead || im.2.dead then { acc with mice := acc.mice ++ [im.2] }
  else cat_mouse_step ts acc im

/-- Rule 4 outer body under the no-re-processing reading. -/
noncomputable def spec_cat_loop_step (ts : ℝ) (acc : CatsAcc) (c : CatS) : CatsAcc :=
  let r := acc.mice.enum.foldl (spec_cat_mouse_step ts) ⟨c, [], acc.score, acc.clouds⟩
  ⟨acc.cats ++ [r.cat], r.mice, r.score, r.clouds⟩

/-- Game.handle_collision as the specification words it: identical to the
source pass except that an entity already marked dead is never
re-processed by a later rule in the same pass.  This definition follows
the spec wording, for comparison with handle_collision. -/
noncomputable def handle_collision_no_reprocess (earth moon : BodyS) (ts : ℝ) (g : GameS) : GameS :=
  let cats1 := g.cats.map (fun c =>
    if ¬ c.dead ∧ (collides_with c.pos c.radius earth.pos earth.radius ∨
                   collides_with c.pos c.radius moon.pos moon.radius)
    then { c with dead := true } else c)
  let mr := g.mice.foldl (spec_mouse_moon_step earth moon) ([], g.moon_health, g.game_over)
  let cr := cats1.foldl (spec_cat_loop_step ts) ⟨[], mr.1, g.score, g.clouds⟩
  { cats := cr.cats.filter (fun c => !c.dead),
    mice := cr.mice.filter (fun m => !m.dead),
    clouds := cr.clouds.filter (fun c => !c.dead),
    score := cr.score,
    moon_health := mr.2.1,
    game_over := mr.2.2 }

/-- Eviction policy in Game.update_state: if more than 200 cats are live,
drop the oldest 10 (list order is creation order). -/
def evict {α : Type} (cats : List α) : List α :=
  if cats.length > 200 then cats.drop 10 else cats

/-- Concrete earth used in witnesses: at the origin with radius 1. -/
noncomputable def earth0 : BodyS := ⟨⟨0, 0⟩, 1⟩

/-- Concrete moon body used in witnesses: far away at (1000, 0), radius 1. -/
noncomputable def moon0 : BodyS := ⟨⟨1000, 0⟩, 1⟩

/-- Concrete ballistic cat used in witnesses, sitting on the earth centre. -/
noncomputable def cat0 : CatS := ⟨⟨0, 0⟩, ⟨0, 0⟩, 1, ⟨0, 0⟩, false, none, 0, 0, 0, 0⟩

/-- Concrete homing cat used in witnesses: cat0 locked onto mouse 0. -/
noncomputable def cat1 : CatS := { cat0 with target := some 0 }

/-- Concrete mouse used in witnesses, sitting on the earth centre. -/
noncomputable def mouse0 : MouseS := ⟨⟨0, 0⟩, 1, false⟩

/-- Concrete mouse environment used in witnesses. -/
noncomputable def miceEnv0 : ℕ → MouseS := fun _ => mouse0

/-- Concrete one-cat one-mouse game state used in the C9 counterexample. -/
noncomputable def g0 : GameS := ⟨[cat0], [mouse0], [], 0, 1, false⟩

/-! ## Theorems -/

@[simp] theorem Vec2.add_x (a b : Vec2) : (a + b).x = a.x + b.x := rfl
@[simp] theorem Vec2.add_y (a b : Vec2) : (a + b).y = a.y + b.y := rfl
@[simp] theorem Vec2.sub_x (a b : Vec2) : (a - b).x = a.x - b.x := rfl
@[simp] theorem Vec2.sub_y (a b : Vec2) : (a - b).y = a.y - b.y := rfl
@[simp] theorem Vec2.smul_x (c : ℝ) (v : Vec2) : (c * v).x = c * v.x := rfl
@[simp] theorem Vec2.smul_y (c : ℝ) (v : Vec2) : (c * v).y = c * v.y := rfl
@[simp] theorem Vec2.muls_x (v : Vec2) (c : ℝ) : (v * c).x = v.x * c := rfl
@[simp] theorem Vec2.muls_y (v : Vec2) (c : ℝ) : (v * c).y = v.y * c := rfl
@[simp] theorem Vec2.div_x (v : Vec2) (c : ℝ) : (v / c).x = v.x / c := rfl
@[simp] theorem Vec2.div_y (v : Vec2) (c : ℝ) : (v / c).y = v.y / c := rfl
@[simp] theorem Vec2.zero_x : (0 : Vec2).x = 0 := rfl
@[simp] theorem Vec2.zero_y : (0 : Vec2).y = 0 := rfl
@[simp] theorem Vec2.mk_sub_mk (a b c d : ℝ) :
    (Vec2.mk a b) - ⟨c, d⟩ = ⟨a - c, b - d⟩ := rfl
@[simp] theorem Vec2.mk_add_mk (a b c d : ℝ) :
    (Vec2.mk a b) + ⟨c, d⟩ = ⟨a + c, b + d⟩ := rfl

@[simp] theorem length_mk (a b : ℝ) : length ⟨a, b⟩ = Real.sqrt (a * a + b * b) := rfl

/-- Claim C1 (code_bug): the source future_position(t) evaluates the orbit
formula at angle + t/period, omitting the 2*pi factor present both in the
claim and in update_by, so at the failing input (earth at the origin,
angle 0, lead time t = 15 = one full period) it disagrees with the claimed
value earth.position + R*(cos(2*pi), sin(2*pi)): the code yields
500*(cos 1, sin 1) instead of (500, 0). -/
theorem future_position_missing_two_pi :
    (∀ m t, future_position m t = calc_position m (m.angle + t / MOON_SECONDS_PER_ROTATION)) ∧
    future_position ⟨⟨0, 0⟩, 0, ⟨500, 0⟩⟩ 15 ≠ spec_future_position ⟨⟨0, 0⟩, 0, ⟨500, 0⟩⟩ 15 := by
  refine ⟨fun m t => rfl, fun h => ?_⟩
  have hx := congrArg Vec2.x h
  have hlhs : (future_position ⟨⟨0, 0⟩, 0, ⟨500, 0⟩⟩ 15).x = 500 * Real.cos 1 := by
    simp [future_position, calc_position, rotate, MOON_DISTANCE, MOON_SECONDS_PER_ROTATION]
  have hrhs : (spec_future_position ⟨⟨0, 0⟩, 0, ⟨500, 0⟩⟩ 15).x = 500 := by
    have h2pi : (0 : ℝ) + 2 * Real.pi * 15 / MOON_SECONDS_PER_ROTATION = 2 * Real.pi := by
      rw [show MOON_SECONDS_PER_ROTATION = 15 from rfl]; ring
    simp [spec_future_position, h2pi, Real.cos_two_pi, MOON_DISTANCE]
  have hcos : Real.cos 1 < 1 := by
    have h1 : Real.cos 1 < Real.cos 0 :=
      Real.cos_lt_cos_of_nonneg_of_le_pi le_rfl
        (by linarith [Real.pi_gt_three]) one_pos
    simpa [Real.cos_zero] using h1
  rw [hlhs, hrhs] at hx
  nlinarith [hcos]

/-- Claim C2 counterexample: the very first Homing-Entity-to-moon collision
takes health from 1.0 to 0.75, not to 1.0 - 0.1; and after 10 collisions
health is not 0.0 and the game-over transition has fired 5 times, not
exactly once. -/
theorem take_damage_not_fixed_decrement :
    (moon_hits 1).1 = 3 / 4 ∧ (3 / 4 : ℚ) ≠ 1 - MOUSE_DAMAGE ∧
    (moon_hits 10).1 ≠ 0 ∧ (moon_hits 10).2 ≠ 1 := by
  norm_num [moon_hits, take_damage, find_eated_state, moon_eated_states, MOUSE_DAMAGE]

/-- Claim C2 (amended): take_damage ignores its amount argument entirely;
starting from health 1.0, successive moon collisions snap health through
0.75, 0.5, 0.25, 0.15, 0.05, and the game-over transition fires on the
6th collision, with health never reaching 0. -/
theorem take_damage_steps :
    moon_hits 1 = (3 / 4, 0) ∧ moon_hits 2 = (1 / 2, 0) ∧ moon_hits 3 = (1 / 4, 0) ∧
    moon_hits 4 = (3 / 20, 0) ∧ moon_hits 5 = (1 / 20, 0) ∧ moon_hits 6 = (1 / 20, 1) ∧
    (∀ h a b, take_damage h a = take_damage h b) := by
  refine ⟨?_, ?_, ?_, ?_, ?_, ?_, fun _ _ _ => rfl⟩ <;>
    norm_num [moon_hits, take_damage, find_eated_state, moon_eated_states, MOUSE_DAMAGE,
      Prod.ext_iff]

/-- Claim C3 counterexample: for launch position (0,0) and initial velocity
(60,0), the source verlet_init records previous_position (-60, 0), while
the claimed previous_position = position - v * (1/60) would be (-1, 0). -/
theorem verlet_init_no_unit_time :
    verlet_init ⟨0, 0⟩ ⟨60, 0⟩ ≠ spec_verlet_init ⟨0, 0⟩ ⟨60, 0⟩ := by
  intro h
  have hx := congrArg (fun s => s.last_pos.x) h
  norm_num [verlet_init, spec_verlet_init] at hx

/-- Claim C3 (amended): verlet_init sets previous_position = position - v
with no timestep factor (the desired velocity is expressed per 1/60 s
frame), so the first zero-acceleration Verlet step moves the projectile by
exactly v, not v/60. -/
theorem verlet_init_per_frame (pos v : Vec2) :
    (verlet_init pos v).last_pos = pos - v ∧
    (verlet_step (verlet_init pos v) 0).pos = pos + v := by
  refine ⟨rfl, ?_⟩
  ext <;> simp [verlet_init, verlet_step] <;> ring

/-- Under zero acceleration the Verlet displacement pos - last_pos is
invariant across steps. -/
theorem verlet_zero_invariant (s : VerletS) (n : ℕ) :
    (verlet_iterate s 0 n).pos - (verlet_iterate s 0 n).last_pos = s.pos - s.last_pos := by
  induction n with
  | zero => rfl
  | succ n ih =>
    have ihx := congrArg Vec2.x ih
    have ihy := congrArg Vec2.y ih
    show (verlet_step (verlet_iterate s 0 n) 0).pos -
         (verlet_step (verlet_iterate s 0 n) 0).last_pos = s.pos - s.last_pos
    ext
    · simp [verlet_step] at ihx ⊢; linarith
    · simp [verlet_step] at ihy ⊢; linarith

/-- Claim C6: stepping a Verlet body with zero acceleration advances its
position by the same constant displacement every step, equal to
pos - last_pos at the start. -/
theorem verlet_straight_line (s : VerletS) (n : ℕ) :
    (verlet_iterate s 0 (n + 1)).pos - (verlet_iterate s 0 n).pos = s.pos - s.last_pos := by
  have h := verlet_zero_invariant s n
  have hx := congrArg Vec2.x h
  have hy := congrArg Vec2.y h
  show (verlet_step (verlet_iterate s 0 n) 0).pos - (verlet_iterate s 0 n).pos = s.pos - s.last_pos
  ext
  · simp [verlet_step] at hx ⊢; linarith
  · simp [verlet_step] at hy ⊢; linarith

/-- Claim C5: on every Mouse update the intercept lead time is the result
of exactly 5 applications of the refinement map
lead = distance(moon.future_position(lead), pos) / MOUSE_SPEED starting
from 0 (a fixed iteration budget, independent of the geometry), and the
mouse then moves by normalize(future_position(lead) - pos) * MOUSE_SPEED * ts. -/
theorem mouse_exactly_five_iterations (mn : MoonState) (pos : Vec2) (ts : ℝ) :
    mouse_on_tick mn pos ts =
      pos + normalize (future_position mn
          ((fun lead => distance (future_position mn lead) pos / MOUSE_SPEED)^[5] 0) - pos)
        * MOUSE_SPEED * ts := by
  rfl

/-- Claim C7: with 201 live cats the eviction check keeps exactly 191, and
they are the 191 most recently created (the list is in creation order and
the oldest 10 are dropped); with 200 or fewer cats nothing changes. -/
theorem eviction_policy {α : Type} (cats : List α) :
    (cats.length = 201 →
      (evict cats).length = 191 ∧ evict cats = cats.drop 10 ∧
      cats.take 10 ++ evict cats = cats) ∧
    (cats.length ≤ 200 → evict cats = cats) := by
  constructor
  · intro h
    have hgt : cats.length > 200 := by omega
    refine ⟨?_, ?_, ?_⟩ <;> simp [evict, hgt, h, List.take_append_drop]
  · intro h
    have hgt : ¬ cats.length > 200 := by omega
    simp [evict, hgt]

/-- Witness for claim C7 at concrete inputs of length 201 and 5. -/
theorem eviction_policy_witness :
    (evict (List.range 201)).length = 191 ∧
    evict (List.range 201) = (List.range 201).drop 10 ∧
    evict (List.range 5) = List.range 5 := by
  have h1 := (eviction_policy (List.range 201)).1 (by simp)
  have h2 := (eviction_policy (List.range 5)).2 (by simp)
  exact ⟨h1.1, h1.2.1, h2⟩

/-- Claim C8: the circle collision test is strict: at centre distance
exactly r1 + r2 there is no collision; at distance r1 + r2 - eps with
0 < eps ≤ r1 + r2 there is one; and the test depends only on the centre
distance and the summed radii. -/
theorem collision_strict_threshold (p1 p2 : Vec2) (r1 r2 eps : ℝ) :
    (length (p1 - p2) = r1 + r2 → ¬ collides_with p1 r1 p2 r2) ∧
    (0 < eps → eps ≤ r1 + r2 → length (p1 - p2) = r1 + r2 - eps →
      collides_with p1 r1 p2 r2) ∧
    (∀ q1 s1 q2 s2, length (p1 - p2) = length (q1 - q2) → r1 + r2 = s1 + s2 →
      (collides_with p1 r1 p2 r2 ↔ collides_with q1 s1 q2 s2)) := by
  unfold collides_with
  refine ⟨fun h => by rw [h]; exact lt_irrefl _, fun heps _ h => by rw [h]; linarith,
    fun q1 s1 q2 s2 h1 h2 => by rw [h1, h2]⟩

/-- Evaluation of length at the concrete 3-4-5 offset used in witnesses. -/
theorem length_three_four : length (Vec2.mk 0 0 - ⟨3, 4⟩) = 5 := by
  have h : ((0 : ℝ) - 3) * (0 - 3) + (0 - 4) * (0 - 4) = 5 ^ 2 := by norm_num
  rw [Vec2.mk_sub_mk, length_mk, h, Real.sqrt_sq (by norm_num : (0 : ℝ) ≤ 5)]

/-- Witness for claim C8: circles at centre distance 5 with radii summing
to 5 do not collide; with radii summing to 6 (eps = 1) they do. -/
theorem collision_threshold_witness :
    ¬ collides_with ⟨0, 0⟩ 2 ⟨3, 4⟩ 3 ∧ collides_with ⟨0, 0⟩ 3 ⟨3, 4⟩ 3 := by
  refine ⟨(collision_strict_threshold ⟨0, 0⟩ ⟨3, 4⟩ 2 3 1).1 ?_,
    (collision_strict_threshold ⟨0, 0⟩ ⟨3, 4⟩ 3 3 1).2.1 one_pos (by norm_num) ?_⟩
  · rw [length_three_four]; norm_num
  · rw [length_three_four]; norm_num

/-- Claim C4: for a point distinct from the body centre, the gravity
acceleration is 10 * normalize(body.pos - point) / (distance/1000)^2, and
a ballistic (target-less) Verlet step applies the vector sum of the earth
and moon contributions, the moon evaluated at its current position. -/
theorem gravity_formula_and_sum (body : BodyS) (p : Vec2) (hp : p ≠ body.pos)
    (c : CatS) (t : ℝ) (earth moon : BodyS) (mice : ℕ → MouseS) (ts : ℝ)
    (hc : c.target = none) :
    force_of_gravity p body =
      ((10 : ℝ) * normalize (body.pos - p)) / ((distance body.pos p / 1000) ^ 2) ∧
    (cat_update_by c t earth moon mice ts).pos =
      (2 : ℝ) * c.pos - c.last_pos +
        (force_of_gravity c.pos earth + force_of_gravity c.pos moon) * t * t := by
  constructor
  · rw [force_of_gravity, distance, sq]
  · rw [cat_update_by.eq_def, hc]; rfl

/-- Witness for claim C4 at a body at (3,4) with the point at the origin,
and at the concrete ballistic cat cat0. -/
theorem gravity_formula_and_sum_witness :
    force_of_gravity ⟨0, 0⟩ ⟨⟨3, 4⟩, 1⟩ =
      ((10 : ℝ) * normalize ((⟨⟨3, 4⟩, 1⟩ : BodyS).pos - ⟨0, 0⟩)) /
        ((distance (⟨⟨3, 4⟩, 1⟩ : BodyS).pos ⟨0, 0⟩ / 1000) ^ 2) ∧
    (cat_update_by cat0 1 earth0 moon0 miceEnv0 1).pos =
      (2 : ℝ) * cat0.pos - cat0.last_pos +
        (force_of_gravity cat0.pos earth0 + force_of_gravity cat0.pos moon0) * (1 : ℝ) * (1 : ℝ) :=
  gravity_formula_and_sum ⟨⟨3, 4⟩, 1⟩ ⟨0, 0⟩
    (fun h => by have hx := congrArg Vec2.x h; norm_num at hx)
    cat0 1 earth0 moon0 miceEnv0 1 rfl

/-- A homing step never clears the target: a cat whose target is mouse i
still targets mouse i after cat_update_by. -/
theorem cat_update_target_some (c : CatS) (i : ℕ) (h : c.target = some i)
    (t : ℝ) (earth moon : BodyS) (mice : ℕ → MouseS) (ts : ℝ) :
    (cat_update_by c t earth moon mice ts).target = some i := by
  rw [cat_update_by.eq_def, h]

/-- Claim C10: once a cat has a target it stays in homing mode on every
later update (through any sequence of update environments), each homing
update collapses the Verlet history onto the new position, and a homing
update whose target is dead marks the cat dead. -/
theorem cat_homing_invariants (c : CatS) (i : ℕ) (t : ℝ) (earth moon : BodyS)
    (mice : ℕ → MouseS) (ts : ℝ) (h : c.target = some i) :
    (cat_update_by c t earth moon mice ts).target = some i ∧
    (cat_update_by c t earth moon mice ts).last_pos =
      (cat_update_by c t earth moon mice ts).pos ∧
    ((mice i).dead = true → (cat_update_by c t earth moon mice ts).dead = true) ∧
    (∀ envs : List EnvS, (envs.foldl cat_update_env c).target = some i) := by
  refine ⟨cat_update_target_some c i h t earth moon mice ts, ?_, ?_, ?_⟩
  · rw [cat_update_by.eq_def, h]
  · intro hd
    rw [cat_update_by.eq_def, h]
    simp [hd]
  · intro envs
    induction envs generalizing c with
    | nil => exact h
    | cons e rest ih =>
      exact ih (cat_update_env c e)
        (cat_update_target_some c i h e.1 e.2.1 e.2.2.1 e.2.2.2.1 e.2.2.2.2)

/-- Witness for claim C10 at the concrete homing cat cat1 (target mouse 0). -/
theorem cat_homing_invariants_witness :
    (cat_update_by cat1 1 earth0 moon0 miceEnv0 1).target = some 0 ∧
    (cat_update_by cat1 1 earth0 moon0 miceEnv0 1).last_pos =
      (cat_update_by cat1 1 earth0 moon0 miceEnv0 1).pos ∧
    (([(1, earth0, moon0, miceEnv0, 1)] : List EnvS).foldl cat_update_env cat1).target
      = some 0 := by
  have h := cat_homing_invariants cat1 0 1 earth0 moon0 miceEnv0 1 rfl
  exact ⟨h.1, h.2.1, h.2.2.2 [(1, earth0, moon0, miceEnv0, 1)]⟩

/-- Claim C9 counterexample: with a cat and a mouse both sitting on the
earth centre, the source pass marks the cat dead in rule 1 and the mouse
dead in rule 2, yet rule 4 still processes the dead pair and awards 5
score points; the no-re-processing reading of the pass awards 0, so the
two disagree. -/
theorem handle_collision_reprocesses_dead :
    (handle_collision earth0 moon0 1 g0).score = 5 ∧
    (handle_collision_no_reprocess earth0 moon0 1 g0).score = 0 ∧
    handle_collision earth0 moon0 1 g0 ≠ handle_collision_no_reprocess earth0 moon0 1 g0 := by
  have h1 : (handle_collision earth0 moon0 1 g0).score = 5 := by
    norm_num [handle_collision, g0, cat0, mouse0, earth0, moon0, mouse_moon_step,
      cat_loop_step, cat_mouse_step, mouse_in_attack_range, collides_with, clamp,
      CAT_ATTACK_RANGE, List.enum, List.enumFrom, max_def, min_def, Real.sqrt_zero]
  have h2 : (handle_collision_no_reprocess earth0 moon0 1 g0).score = 0 := by
    norm_num [handle_collision_no_reprocess, g0, cat0, mouse0, earth0, moon0,
      spec_mouse_moon_step, mouse_moon_step, spec_cat_loop_step, spec_cat_mouse_step,
      cat_mouse_step, mouse_in_attack_range, collides_with, clamp,
      CAT_ATTACK_RANGE, List.enum, List.enumFrom, max_def, min_def, Real.sqrt_zero]
  refine ⟨h1, h2, fun heq => ?_⟩
  have h3 := congrArg GameS.score heq
  rw [h1, h2] at h3
  norm_num at h3

/-- Claim C9 (amended): dead entities can be re-marked and re-processed
within the same pass, but every entity marked dead during the pass is
removed from its owning collection at the end of the pass: the returned
cat, mouse and cloud collections contain no dead entities. -/
theorem handle_collision_prunes_dead (earth moon : BodyS) (ts : ℝ) (g : GameS) :
    ((handle_collision earth moon ts g).cats.all fun c => !c.dead) = true ∧
    ((handle_collision earth moon ts g).mice.all fun m => !m.dead) = true ∧
    ((handle_collision earth moon ts g).clouds.all fun cl => !cl.dead) = true := by
  refine ⟨?_, ?_, ?_⟩ <;>
  · simp only [handle_collision, List.all_eq_true, List.mem_filter]
    exact fun e he => he.2

end Pyweek17
